import Mathlib

/-!
Verification development for the AddressKit repository: a shallow embedding of
the covered-state configuration, query pagination, bulk-index retry backoff,
the resumable fetcher (resume protocol, HTTP 416 restarts, corruption checks),
the package-metadata cache, the multi-line address renderer, and the
authority-code lookup helpers, together with theorems settling the stated
properties of each.
-/

/- ====================================================================
   C1: covered states
   Embeds src/apps/server/service/helpers/isSupportedState.ts and
   src/apps/server/service/helpers/getCoveredStates.ts.
   ==================================================================== -/

/-- From isSupportedState.ts: membership in the hard-coded list of
administrative state codes.  Note the source list has eight entries and
does not contain "OT". -/
def isSupportedState (state : String) : Bool :=
  ["ACT", "NSW", "NT", "QLD", "SA", "TAS", "VIC", "WA"].contains state

/-- Splitting of a character list at a separator, with JavaScript
String.split semantics for a one-character separator: the empty list
yields one empty field, and a trailing separator yields a trailing
empty field. -/
def splitChars (sep : Char) : List Char → List (List Char)
  | [] => [[]]
  | c :: rest =>
    let r := splitChars sep rest
    if c = sep then [] :: r
    else
      match r with
      | [] => [[c]]
      | g :: gs => (c :: g) :: gs

/-- JavaScript String.split with a one-character separator, as used by
getCoveredStates in the form covered.split(","). -/
def jsSplit (s : String) (sep : Char) : List String :=
  (splitChars sep s.toList).map (fun g => String.mk g)

/-- From getCoveredStates.ts.  The argument is the value of the
COVERED_STATES environment variable, with absence represented by the
empty string (the source reads process.env.COVERED_STATES with a
fallback of the empty string). -/
def getCoveredStates (coveredEnv : String) : List String :=
  if coveredEnv = "" then []
  else
    let states := jsSplit coveredEnv (',')
    if states.any (fun state => !(isSupportedState state)) then [] else states

/-- The nine region codes documented as valid in the repository README
(table under the load command) and in the specification. -/
def documentedStateCodes : List String :=
  ["ACT", "NSW", "NT", "OT", "QLD", "SA", "TAS", "VIC", "WA"]

/- ====================================================================
   C2: search pagination
   Embeds validatePaginationParams and the pagination part of
   searchForAddress from src/apps/server/dist/service/index.js.
   The conf module is not under src, so the maximum page number and
   maximum page size are parameters here, and the default page size
   is modelled from the spec.
   ==================================================================== -/

/-- Modelled from the spec: the conf module defining PAGE_SIZE is not under
src; the spec and the README record a default page size of 8. -/
def PAGE_SIZE : Int := 8

/-- From validatePaginationParams in dist/service/index.js: Math.max and
Math.min clamping of the raw page and size. -/
def validatePaginationParams (page size maxPageNumber maxPageSize : Int) :
    Int × Int :=
  (max 1 (min page maxPageNumber), max 1 (min size maxPageSize))

/-- The pagination fields of the query body built by searchForAddress in
dist/service/index.js. -/
structure SearchQueryWindow where
  offset : Int
  size : Int
  deriving Repr, DecidableEq

/-- From searchForAddress in dist/service/index.js: pageSize defaults to
PAGE_SIZE, both parameters are clamped, and the query body carries
from = (validPage - 1) * validSize and size = validSize. -/
def searchForAddressWindow (p : Int) (pageSize : Option Int)
    (maxPageNumber maxPageSize : Int) : SearchQueryWindow :=
  let ps := pageSize.getD PAGE_SIZE
  let v := validatePaginationParams p ps maxPageNumber maxPageSize
  { offset := (v.1 - 1) * v.2, size := v.2 }

/-- The clamp of the claim, written independently of the source: x limited
to the closed interval from lo to hi. -/
def clampTo (lo hi x : Int) : Int :=
  if x < lo then lo else if hi < x then hi else x

/- ====================================================================
   C3: bulk index retry backoff
   Embeds the retry loop of sendIndexRequest from
   src/apps/server/service/DefaultService.ts (lines 803 to 859).
   ==================================================================== -/

/-- The three backoff settings read from the environment by
sendIndexRequest, with their source defaults 30000, 30000 and 600000. -/
structure IndexBackoffConfig where
  initial : Nat
  increment : Nat
  maxBackoff : Nat
  deriving Repr, DecidableEq

/-- Default configuration of sendIndexRequest: initial backoff 30000 ms,
increment 30000 ms, cap 600000 ms. -/
def defaultIndexBackoffConfig : IndexBackoffConfig :=
  { initial := 30000, increment := 30000, maxBackoff := 600000 }

/-- The loop state of sendIndexRequest: the body being resubmitted and the
current backoff value.  The body variable is never reassigned in the
source loop. -/
structure IndexRetryState where
  body : List String
  backoff : Nat
  deriving Repr, DecidableEq

/-- One failed bulk response inside the retry loop of sendIndexRequest:
the loop waits the current backoff, then sets
backoff = min(maxBackoff, backoff + increment) and resubmits the same
body.  The first component is the delay waited before the resubmission. -/
def indexRetryStep (cfg : IndexBackoffConfig) (s : IndexRetryState) :
    Nat × IndexRetryState :=
  (s.backoff,
   { body := s.body, backoff := min cfg.maxBackoff (s.backoff + cfg.increment) })

/-- The loop state after n failed bulk responses, starting from the state
entered on the first submission. -/
def indexRetryStateAfter (cfg : IndexBackoffConfig) (body : List String) :
    Nat → IndexRetryState
  | 0 => { body := body, backoff := cfg.initial }
  | n + 1 => (indexRetryStep cfg (indexRetryStateAfter cfg body n)).2

/-- The delay waited before resubmission number k (1-based): the backoff
value held in the state after k - 1 failures. -/
def indexRetryDelay (cfg : IndexBackoffConfig) (body : List String) (k : Nat) :
    Nat :=
  (indexRetryStep cfg (indexRetryStateAfter cfg body (k - 1))).1

/- ====================================================================
   C4: fetcher resume protocol
   Embeds getExistingFileSize, validatePartialFile and the Range header
   construction of attemptDownload from
   src/packages/core/utils/stream-down.ts.
   ==================================================================== -/

/-- From getExistingFileSize in stream-down.ts: the on-disk size of the
destination, with 0 when the file is absent.  The file system state is
represented as an Option holding the size of the file when it exists. -/
def getExistingFileSize (file : Option Nat) : Nat :=
  file.getD 0

/-- The result of validatePartialFile in stream-down.ts. -/
structure PartialFileValidation where
  resumeFromBytes : Nat
  wasDeleted : Bool
  deriving Repr, DecidableEq

/-- From validatePartialFile in stream-down.ts.  expectedSize is the
number passed by streamDown (opts.expectedSize with a fallback of 0);
values at most 0 mean the expected size is unknown. -/
def validatePartialFile (file : Option Nat) (expectedSize : Int) :
    PartialFileValidation :=
  let existingSize := getExistingFileSize file
  if existingSize = 0 then
    { resumeFromBytes := 0, wasDeleted := false }
  else if expectedSize ≤ 0 then
    { resumeFromBytes := existingSize, wasDeleted := false }
  else if expectedSize ≤ (existingSize : Int) then
    { resumeFromBytes := 0, wasDeleted := true }
  else
    { resumeFromBytes := existingSize, wasDeleted := false }

/-- From attemptDownload in stream-down.ts: the request carries the header
Range: bytes={existingSize}- exactly when existingSize is positive
(isResuming is defined as existingSize > 0). -/
def attemptRangeHeader (existingSize : Nat) : Option String :=
  if 0 < existingSize then
    some (("bytes=") ++ toString existingSize ++ ("-"))
  else none

/- ====================================================================
   C6: HTTP 416 restart handling in the streamDown retry loop
   Embeds the 416 branch of attemptDownload (lines 445 to 463) and the
   requiresRestart handling of the retry loop of streamDown (lines 815
   to 890) from src/packages/core/utils/stream-down.ts.
   ==================================================================== -/

/-- The outcome of one call to attemptDownload, abstracting the network:
success with the total size written, an HTTP 416 response (the source
deletes the destination file and rejects with a requiresRestart error),
or any other failure carrying its code and retryability. -/
inductive AttemptOutcome where
  | success (totalBytes : Nat)
  | rangeNotSatisfiable
  | failure (code : String) (retryable : Bool)
  deriving Repr, DecidableEq

/-- The terminal error data of the DownloadError thrown by streamDown. -/
structure DownloadErrorInfo where
  code : String
  attempts : Nat
  isRetryable : Bool
  deriving Repr, DecidableEq

/-- The result of the modelled streamDown retry loop, carrying the final
destination file state (none when the file was deleted).  The
outOfOutcomes constructor is reached only when the modelled list of
attempt outcomes is exhausted. -/
inductive StreamDownResult where
  | ok (attempt : Nat) (file : Option Nat)
  | failed (e : DownloadErrorInfo) (file : Option Nat)
  | outOfOutcomes (file : Option Nat) (attempt restartCount : Nat)
  deriving Repr, DecidableEq

/-- From streamDown in stream-down.ts: the restart counter bound for
corrupt-file restarts. -/
def maxRestarts : Nat := 3

/-- The retry loop of streamDown, driven by a list of attempt outcomes.
Each iteration first validates the partial file (which can delete it),
then attempts the download.  An HTTP 416 outcome deletes the file,
increments the restart counter, fails with CORRUPT_FILE_LOOP when the
counter exceeds maxRestarts, and otherwise loops again without
consuming a retry attempt (the source decrements attempt before the
loop increment).  Any other failure consumes a retry attempt when it
is retryable and retries remain, and otherwise throws a DownloadError
with attempts = attempt + 1. -/
def streamDownLoop (maxRetries : Nat) (expectedSize : Int) :
    List AttemptOutcome → Option Nat → Nat → Nat → StreamDownResult
  | [], file, attempt, restartCount => .outOfOutcomes file attempt restartCount
  | o :: rest, file, attempt, restartCount =>
    let v := validatePartialFile file expectedSize
    let fileValidated := if v.wasDeleted then none else file
    match o with
    | .success totalBytes => .ok attempt (some totalBytes)
    | .rangeNotSatisfiable =>
      if maxRestarts < restartCount + 1 then
        .failed { code := "CORRUPT_FILE_LOOP", attempts := attempt + 1,
                  isRetryable := false } none
      else
        streamDownLoop maxRetries expectedSize rest none attempt
          (restartCount + 1)
    | .failure code retryable =>
      if retryable ∧ attempt < maxRetries then
        streamDownLoop maxRetries expectedSize rest fileValidated
          (attempt + 1) restartCount
      else
        .failed { code := code, attempts := attempt + 1,
                  isRetryable := retryable } fileValidated

/- ====================================================================
   C7: corruption detection while writing and at end of stream
   Embeds the data handler overflow check (lines 627 to 665), the end
   handler size verification (lines 668 to 694) and
   RETRYABLE_ERROR_CODES (lines 144 to 158) from
   src/packages/core/utils/stream-down.ts.
   ==================================================================== -/

/-- From RETRYABLE_ERROR_CODES in stream-down.ts. -/
def RETRYABLE_ERROR_CODES : List String :=
  ["ECONNRESET", "ECONNREFUSED", "ETIMEDOUT", "ENOTFOUND", "ENETUNREACH",
   "EHOSTUNREACH", "EPIPE", "EAI_AGAIN", "EPROTO", "SOCKET_TIMEOUT",
   "CONNECT_TIMEOUT", "DATA_OVERFLOW", "SIZE_MISMATCH"]

/-- From the data handler of attemptDownload: the overflow threshold
max(expectedBytesThisSession * 1.01, expectedBytesThisSession + 1024).
The source computes with double-precision numbers; the model uses exact
rationals, writing 1.01 as 101 / 100. -/
def overflowThreshold (expectedBytesThisSession : ℚ) : ℚ :=
  max (expectedBytesThisSession * (101 / 100)) (expectedBytesThisSession + 1024)

/-- The overflow comparison of the data handler,
bytesWrittenThisSession + chunk.length > overflowThreshold, rewritten
exactly over the integers by multiplying both sides by 100 (so that
concrete instances evaluate inside the kernel).  The equivalence with
the rational threshold is proved as overflowExceeded_iff below. -/
def overflowExceeded (expectedBytesThisSession bytes : Nat) : Bool :=
  max (101 * expectedBytesThisSession) (100 * (expectedBytesThisSession + 1024))
    < 100 * bytes

/-- The per-session write state of attemptDownload: the destination file
size and the byte count written in the current session. -/
structure WriteSessionState where
  fileSize : Nat
  bytesWrittenThisSession : Nat
  deriving Repr, DecidableEq

/-- A failed attempt raised by the corruption checks, recording the error
code and that the destination file was deleted. -/
structure SessionError where
  code : String
  fileDeleted : Bool
  deriving Repr, DecidableEq

/-- From the data handler of attemptDownload: receiving one chunk.  When
the total is known and the session bytes including this chunk would
exceed the overflow threshold, the file is closed and deleted and the
attempt fails with DATA_OVERFLOW; otherwise the chunk is written. -/
def sessionDataStep (totalBytes expectedBytesThisSession : Nat)
    (st : WriteSessionState) (chunk : Nat) :
    Except SessionError WriteSessionState :=
  if 0 < totalBytes ∧
      overflowExceeded expectedBytesThisSession
        (st.bytesWrittenThisSession + chunk) then
    .error { code := "DATA_OVERFLOW", fileDeleted := true }
  else
    .ok { fileSize := st.fileSize + chunk,
          bytesWrittenThisSession := st.bytesWrittenThisSession + chunk }

/-- From the end handler of attemptDownload: after the stream ends, when
the total is known and the final on-disk size differs from it, the file
is deleted and the attempt fails with SIZE_MISMATCH; otherwise the
attempt resolves with the final size. -/
def sessionEndCheck (totalBytes finalSize : Nat) : Except SessionError Nat :=
  if 0 < totalBytes ∧ finalSize ≠ totalBytes then
    .error { code := "SIZE_MISMATCH", fileDeleted := true }
  else
    .ok finalSize

/-- The write phase of one download attempt: fold the data handler over
the received chunks, then run the end-of-stream verification. -/
def runWriteSession (totalBytes expectedBytesThisSession : Nat)
    (st : WriteSessionState) : List Nat → Except SessionError Nat
  | [] => sessionEndCheck totalBytes st.fileSize
  | chunk :: rest =>
    match sessionDataStep totalBytes expectedBytesThisSession st chunk with
    | .error e => .error e
    | .ok st2 => runWriteSession totalBytes expectedBytesThisSession st2 rest

/- ====================================================================
   C5: package metadata cache
   Embeds fetchGNAFPackageData from
   src/apps/server/service/DefaultService.ts (lines 313 to 380).
   ==================================================================== -/

/-- One day in milliseconds.  Modelled from the spec: the conf module
defining ONE_DAY_MS is not under src; the spec fixes the fresh tier at
one day. -/
def ONE_DAY_MS : Nat := 86400000

/-- Thirty days in milliseconds.  Modelled from the spec: the conf module
defining THIRTY_DAYS_MS is not under src; the spec fixes the stale tier
below thirty days. -/
def THIRTY_DAYS_MS : Nat := 2592000000

/-- A cache entry stored by fetchGNAFPackageData: response body, response
headers and the time the entry was written. -/
structure CacheEntry where
  body : String
  headers : String
  cachedAt : Nat
  deriving Repr, DecidableEq

/-- A successful network response observed by fetchGNAFPackageData,
reduced to its body and headers. -/
structure NetResponse where
  body : String
  headers : String
  deriving Repr, DecidableEq

deriving instance DecidableEq for Except

/-- The observable outcome of fetchGNAFPackageData: the returned body on
success or the propagated network error, whether the cached copy was
served, whether the staleness warning header was attached, and the
cache contents afterwards. -/
structure PkgFetchOutcome where
  result : Except Unit NetResponse
  servedFromCache : Bool
  staleWarning : Bool
  cacheAfter : Option CacheEntry
  deriving Repr, DecidableEq

/-- From fetchGNAFPackageData in DefaultService.ts.  cached is the stored
entry for the package URL, now the current clock, and network the
outcome of the got request (none when the request throws).  The source
computes age = now - cachedAt, returns the cached response when
age is at most one day, otherwise fetches; on success it stores body,
headers and cachedAt = now; on failure it returns the cached response
with a staleness warning when age is under thirty days, and otherwise
rethrows the network error. -/
def fetchGNAFPackageData (cached : Option CacheEntry) (now : Nat)
    (network : Option NetResponse) : PkgFetchOutcome :=
  match cached with
  | some entry =>
    let age := now - entry.cachedAt
    if age ≤ ONE_DAY_MS then
      { result := .ok { body := entry.body, headers := entry.headers },
        servedFromCache := true, staleWarning := false,
        cacheAfter := some entry }
    else
      match network with
      | some r =>
        { result := .ok r, servedFromCache := false, staleWarning := false,
          cacheAfter := some { body := r.body, headers := r.headers,
                               cachedAt := now } }
      | none =>
        if age < THIRTY_DAYS_MS then
          { result := .ok { body := entry.body, headers := entry.headers },
            servedFromCache := true, staleWarning := true,
            cacheAfter := some entry }
        else
          { result := .error (), servedFromCache := false,
            staleWarning := false, cacheAfter := some entry }
  | none =>
    match network with
    | some r =>
      { result := .ok r, servedFromCache := false, staleWarning := false,
        cacheAfter := some { body := r.body, headers := r.headers,
                             cachedAt := now } }
    | none =>
      { result := .error (), servedFromCache := false, staleWarning := false,
        cacheAfter := none }

/- ====================================================================
   C8: multi-line address renderer
   Modelled from the spec: the mapProperty implementation (mapToMla and
   mapToShortMla) is not under src; only its declaration file
   (src/unnamed/part_004) is present.  The spec states that the
   multi-line address has four logical groupings (building name, level
   plus flat, number plus street, locality plus state plus postcode),
   that empty lines are omitted, and that emitting a fifth line is
   fatal.
   ==================================================================== -/

/-- The level grouping of a structured address: resolved type name and
number, as rendered into the multi-line address. -/
structure LevelPart where
  typeName : String
  number : String
  deriving Repr, DecidableEq

/-- The flat grouping of a structured address: resolved type name and
number, as rendered into the multi-line address. -/
structure FlatPart where
  typeName : String
  number : String
  deriving Repr, DecidableEq

/-- The fields of a structured address that the multi-line renderings
read.  locality, state and postcode are mandatory G-NAF columns. -/
structure StructuredAddress where
  buildingName : Option String
  level : Option LevelPart
  flat : Option FlatPart
  numberFirst : String
  streetName : String
  streetTypeName : String
  locality : String
  state : String
  postcode : String
  deriving Repr, DecidableEq

/-- Joins the nonempty parts with single spaces. -/
def joinNonempty (parts : List String) : String :=
  String.intercalate (" ") (parts.filter (fun part => part ≠ ""))

/-- Modelled from the spec: the building name line of the multi-line
address. -/
def buildingNameLine (s : StructuredAddress) : String :=
  s.buildingName.getD ""

/-- Modelled from the spec: the level plus flat grouping line of the
multi-line address. -/
def levelFlatLine (s : StructuredAddress) : String :=
  joinNonempty
    [s.level.elim "" (fun l => joinNonempty [l.typeName, l.number]),
     s.flat.elim "" (fun f => joinNonempty [f.typeName, f.number])]

/-- Modelled from the spec: the number plus street grouping line of the
multi-line address. -/
def numberStreetLine (s : StructuredAddress) : String :=
  joinNonempty [s.numberFirst, s.streetName, s.streetTypeName]

/-- Modelled from the spec: the locality plus state plus postcode line of
the multi-line address. -/
def localityLine (s : StructuredAddress) : String :=
  joinNonempty [s.locality, s.state, s.postcode]

/-- Modelled from the spec: the composed multi-line address lines, with
empty lines omitted. -/
def composeMlaLines (s : StructuredAddress) : List String :=
  [buildingNameLine s, levelFlatLine s, numberStreetLine s,
   localityLine s].filter (fun line => line ≠ "")

/-- Modelled from the spec: mapToMla composes the grouped lines, omits the
empty ones, and raises an error instead of returning a document when a
fifth line would be emitted. -/
def mapToMla (s : StructuredAddress) : Except String (List String) :=
  let lines := composeMlaLines s
  if 4 < lines.length then
    .error ("G-NAF malformation: multi-line address exceeds four lines")
  else
    .ok lines

/-- Modelled from the spec: the shortened level plus flat grouping line
used by the short multi-line rendering, built from the bare numbers. -/
def shortLevelFlatLine (s : StructuredAddress) : String :=
  joinNonempty
    [s.level.elim "" (fun l => l.number), s.flat.elim "" (fun f => f.number)]

/-- Modelled from the spec: the composed short multi-line address lines,
with empty lines omitted. -/
def composeShortMlaLines (s : StructuredAddress) : List String :=
  [buildingNameLine s, shortLevelFlatLine s, numberStreetLine s,
   localityLine s].filter (fun line => line ≠ "")

/-- Modelled from the spec: mapToShortMla, the shortened variant of
mapToMla with the same line budget and the same fatal fifth line. -/
def mapToShortMla (s : StructuredAddress) : Except String (List String) :=
  let lines := composeShortMlaLines s
  if 4 < lines.length then
    .error ("G-NAF malformation: multi-line address exceeds four lines")
  else
    .ok lines

/- ====================================================================
   C9 and C10: authority-code lookup helpers
   Embeds the nine code-to-name helpers from
   src/apps/server/service/helpers/propertyCodeToName.ts (Array.find
   based) and, for C10, the Map based helpers from
   src/apps/server/dist/service/helpers/propertyCodeToName.js
   (buildCodeMap, clearAuthorityCodeMaps and the nine lookups).
   ==================================================================== -/

/-- One row of an authority code table: a code and its readable name. -/
structure AuthorityCodeEntry where
  CODE : String
  NAME : String
  deriving Repr, DecidableEq

/-- The context of propertyCodeToName.ts: the nine authority code tables
loaded from the G-NAF psv files. -/
structure PropertyCodeToNameContext where
  Authority_Code_LEVEL_TYPE_AUT_psv : List AuthorityCodeEntry
  Authority_Code_FLAT_TYPE_AUT_psv : List AuthorityCodeEntry
  Authority_Code_STREET_TYPE_AUT_psv : List AuthorityCodeEntry
  Authority_Code_STREET_CLASS_AUT_psv : List AuthorityCodeEntry
  Authority_Code_LOCALITY_CLASS_AUT_psv : List AuthorityCodeEntry
  Authority_Code_STREET_SUFFIX_AUT_psv : List AuthorityCodeEntry
  Authority_Code_GEOCODE_RELIABILITY_AUT_psv : List AuthorityCodeEntry
  Authority_Code_GEOCODE_TYPE_AUT_psv : List AuthorityCodeEntry
  Authority_Code_GEOCODED_LEVEL_TYPE_AUT_psv : List AuthorityCodeEntry
  deriving Repr, DecidableEq

/-- The shared body of the nine helpers in propertyCodeToName.ts: find the
first entry whose CODE equals the code and return its NAME, and return
undefined (after logging a diagnostic) when no entry matches.  The
address argument of some helpers is used only for logging and is
omitted. -/
def findCodeName (entries : List AuthorityCodeEntry) (code : String) :
    Option String :=
  (entries.find? (fun entry => entry.CODE = code)).map (fun entry => entry.NAME)

/-- From levelTypeCodeToName in propertyCodeToName.ts. -/
def levelTypeCodeToName (code : String) (context : PropertyCodeToNameContext) :
    Option String :=
  findCodeName context.Authority_Code_LEVEL_TYPE_AUT_psv code

/-- From flatTypeCodeToName in propertyCodeToName.ts. -/
def flatTypeCodeToName (code : String) (context : PropertyCodeToNameContext) :
    Option String :=
  findCodeName context.Authority_Code_FLAT_TYPE_AUT_psv code

/-- From streetTypeCodeToName in propertyCodeToName.ts. -/
def streetTypeCodeToName (code : String) (context : PropertyCodeToNameContext) :
    Option String :=
  findCodeName context.Authority_Code_STREET_TYPE_AUT_psv code

/-- From streetClassCodeToName in propertyCodeToName.ts. -/
def streetClassCodeToName (code : String)
    (context : PropertyCodeToNameContext) : Option String :=
  findCodeName context.Authority_Code_STREET_CLASS_AUT_psv code

/-- From localityClassCodeToName in propertyCodeToName.ts. -/
def localityClassCodeToName (code : String)
    (context : PropertyCodeToNameContext) : Option String :=
  findCodeName context.Authority_Code_LOCALITY_CLASS_AUT_psv code

/-- From streetSuffixCodeToName in propertyCodeToName.ts. -/
def streetSuffixCodeToName (code : String)
    (context : PropertyCodeToNameContext) : Option String :=
  findCodeName context.Authority_Code_STREET_SUFFIX_AUT_psv code

/-- From geocodeReliabilityCodeToName in propertyCodeToName.ts. -/
def geocodeReliabilityCodeToName (code : String)
    (context : PropertyCodeToNameContext) : Option String :=
  findCodeName context.Authority_Code_GEOCODE_RELIABILITY_AUT_psv code

/-- From geocodeTypeCodeToName in propertyCodeToName.ts. -/
def geocodeTypeCodeToName (code : String)
    (context : PropertyCodeToNameContext) : Option String :=
  findCodeName context.Authority_Code_GEOCODE_TYPE_AUT_psv code

/-- From levelGeocodedCodeToName in propertyCodeToName.ts. -/
def levelGeocodedCodeToName (code : String)
    (context : PropertyCodeToNameContext) : Option String :=
  findCodeName context.Authority_Code_GEOCODED_LEVEL_TYPE_AUT_psv code

/-- The set operation of the JavaScript Map used by buildCodeMap in the
dist helpers: an existing key keeps its position and takes the new
value, a new key is appended.  The Map is represented as its
insertion-ordered list of key-value pairs. -/
def mapSet : List (String × String) → String → String →
    List (String × String)
  | [], k, v => [(k, v)]
  | p :: rest, k, v =>
    if p.1 = k then (k, v) :: rest else p :: mapSet rest k v

/-- The get operation of the JavaScript Map: the value stored at the key,
none when absent. -/
def mapGet (m : List (String × String)) (k : String) : Option String :=
  (m.find? (fun p => p.1 = k)).map (fun p => p.2)

/-- From buildCodeMap in dist propertyCodeToName.js: populate a Map with
map.set(entry.CODE, entry.NAME) over the entries in order. -/
def buildCodeMap (entries : List AuthorityCodeEntry) :
    List (String × String) :=
  entries.foldl (fun m entry => mapSet m entry.CODE entry.NAME) []

/-- The shared body of the nine Map based helpers in dist
propertyCodeToName.js, starting from cleared lookup-map state (after
clearAuthorityCodeMaps): the lazily built Map for the table is
buildCodeMap over the context table, and the helper returns its value
at the code, undefined when absent. -/
def mapCodeName (entries : List AuthorityCodeEntry) (code : String) :
    Option String :=
  mapGet (buildCodeMap entries) code

/-- From levelTypeCodeToName in dist propertyCodeToName.js (Map based);
the Dist suffix keeps the name distinct from the Array.find based
helper of the TypeScript source. -/
def levelTypeCodeToNameDist (code : String)
    (context : PropertyCodeToNameContext) : Option String :=
  mapCodeName context.Authority_Code_LEVEL_TYPE_AUT_psv code

/-- From flatTypeCodeToName in dist propertyCodeToName.js (Map based). -/
def flatTypeCodeToNameDist (code : String)
    (context : PropertyCodeToNameContext) : Option String :=
  mapCodeName context.Authority_Code_FLAT_TYPE_AUT_psv code

/-- From streetTypeCodeToName in dist propertyCodeToName.js (Map based). -/
def streetTypeCodeToNameDist (code : String)
    (context : PropertyCodeToNameContext) : Option String :=
  mapCodeName context.Authority_Code_STREET_TYPE_AUT_psv code

/-- From streetClassCodeToName in dist propertyCodeToName.js (Map based). -/
def streetClassCodeToNameDist (code : String)
    (context : PropertyCodeToNameContext) : Option String :=
  mapCodeName context.Authority_Code_STREET_CLASS_AUT_psv code

/-- From localityClassCodeToName in dist propertyCodeToName.js
(Map based). -/
def localityClassCodeToNameDist (code : String)
    (context : PropertyCodeToNameContext) : Option String :=
  mapCodeName context.Authority_Code_LOCALITY_CLASS_AUT_psv code

/-- From streetSuffixCodeToName in dist propertyCodeToName.js
(Map based). -/
def streetSuffixCodeToNameDist (code : String)
    (context : PropertyCodeToNameContext) : Option String :=
  mapCodeName context.Authority_Code_STREET_SUFFIX_AUT_psv code

/-- From geocodeReliabilityCodeToName in dist propertyCodeToName.js
(Map based). -/
def geocodeReliabilityCodeToNameDist (code : String)
    (context : PropertyCodeToNameContext) : Option String :=
  mapCodeName context.Authority_Code_GEOCODE_RELIABILITY_AUT_psv code

/-- From geocodeTypeCodeToName in dist propertyCodeToName.js (Map based). -/
def geocodeTypeCodeToNameDist (code : String)
    (context : PropertyCodeToNameContext) : Option String :=
  mapCodeName context.Authority_Code_GEOCODE_TYPE_AUT_psv code

/-- From levelGeocodedCodeToName in dist propertyCodeToName.js
(Map based). -/
def levelGeocodedCodeToNameDist (code : String)
    (context : PropertyCodeToNameContext) : Option String :=
  mapCodeName context.Authority_Code_GEOCODED_LEVEL_TYPE_AUT_psv code

/-- A table whose codes are pairwise distinct; the JavaScript sources do
not give two rows of one authority table the same CODE a defined joint
meaning, and the amended C10 equivalence is restricted to this case. -/
def codesDistinct (entries : List AuthorityCodeEntry) : Prop :=
  entries.Pairwise (fun a b => a.CODE ≠ b.CODE)

instance (entries : List AuthorityCodeEntry) :
    Decidable (codesDistinct entries) := by
  unfold codesDistinct
  infer_instance

/-- The name attached to the last entry of the table carrying the code:
the value the JavaScript Map holds after buildCodeMap, since a later
map.set on the same key overwrites the earlier value. -/
def lastCodeName : List AuthorityCodeEntry → String → Option String
  | [], _ => none
  | entry :: rest, code =>
    match lastCodeName rest code with
    | some n => some n
    | none => if entry.CODE = code then some entry.NAME else none

/-- Concrete authority tables used to exercise the lookup helpers: one
defined code per table. -/
def sampleAuthorityContext : PropertyCodeToNameContext :=
  { Authority_Code_LEVEL_TYPE_AUT_psv := [{ CODE := "L", NAME := "LEVEL" }],
    Authority_Code_FLAT_TYPE_AUT_psv := [{ CODE := "UNIT", NAME := "UNIT" }],
    Authority_Code_STREET_TYPE_AUT_psv := [{ CODE := "AV", NAME := "AVENUE" }],
    Authority_Code_STREET_CLASS_AUT_psv :=
      [{ CODE := "C", NAME := "CONFIRMED" }],
    Authority_Code_LOCALITY_CLASS_AUT_psv :=
      [{ CODE := "G", NAME := "GAZETTED LOCALITY" }],
    Authority_Code_STREET_SUFFIX_AUT_psv := [{ CODE := "N", NAME := "NORTH" }],
    Authority_Code_GEOCODE_RELIABILITY_AUT_psv :=
      [{ CODE := "2", NAME := "WITHIN ADDRESS SITE BOUNDARY" }],
    Authority_Code_GEOCODE_TYPE_AUT_psv :=
      [{ CODE := "PC", NAME := "PROPERTY CENTROID" }],
    Authority_Code_GEOCODED_LEVEL_TYPE_AUT_psv :=
      [{ CODE := "7", NAME := "PROPERTY LEVEL" }] }

/-- A level type table in which the code A appears twice with different
names; the remaining tables are empty. -/
def dupAuthorityContext : PropertyCodeToNameContext :=
  { Authority_Code_LEVEL_TYPE_AUT_psv :=
      [{ CODE := "A", NAME := "first" }, { CODE := "A", NAME := "second" }],
    Authority_Code_FLAT_TYPE_AUT_psv := [],
    Authority_Code_STREET_TYPE_AUT_psv := [],
    Authority_Code_STREET_CLASS_AUT_psv := [],
    Authority_Code_LOCALITY_CLASS_AUT_psv := [],
    Authority_Code_STREET_SUFFIX_AUT_psv := [],
    Authority_Code_GEOCODE_RELIABILITY_AUT_psv := [],
    Authority_Code_GEOCODE_TYPE_AUT_psv := [],
    Authority_Code_GEOCODED_LEVEL_TYPE_AUT_psv := [] }

/- ====================================================================
   Theorems
   ==================================================================== -/

/-- C1: the claim reads the closed region set as the nine documented
codes including OT, and the spec and README agree; but the code path
rejects OT.  With COVERED_STATES=OT every comma-separated entry lies
in the documented nine-code set, yet getCoveredStates returns the
empty list (full coverage downstream) instead of the entered list, so
the code contradicts the repository README table of valid state
codes. -/
theorem getCoveredStates_rejects_documented_OT :
    (∀ s ∈ jsSplit "OT" (','), s ∈ documentedStateCodes) ∧
    getCoveredStates "OT" = [] ∧ getCoveredStates "OT" ≠ ["OT"] := by
  decide

/-- C2: for every page number p and page size s, the query window built
by searchForAddress uses offset (p2 - 1) * s2 and size s2, where p2 is
p clamped to the interval from 1 to maxPageNumber and s2 is s clamped
to the interval from 1 to maxPageSize; when no page size is passed the
default PAGE_SIZE = 8 is used. -/
theorem searchForAddress_pagination (p s maxPageNumber maxPageSize : Int)
    (hPN : 1 ≤ maxPageNumber) (hPS : 1 ≤ maxPageSize) :
    (searchForAddressWindow p (some s) maxPageNumber maxPageSize).offset =
        (clampTo 1 maxPageNumber p - 1) * clampTo 1 maxPageSize s ∧
    (searchForAddressWindow p (some s) maxPageNumber maxPageSize).size =
        clampTo 1 maxPageSize s ∧
    searchForAddressWindow p none maxPageNumber maxPageSize =
        searchForAddressWindow p (some PAGE_SIZE) maxPageNumber maxPageSize ∧
    PAGE_SIZE = 8 := by
  have hpage : max 1 (min p maxPageNumber) = clampTo 1 maxPageNumber p := by
    unfold clampTo
    split_ifs <;> omega
  have hsize : max 1 (min s maxPageSize) = clampTo 1 maxPageSize s := by
    unfold clampTo
    split_ifs <;> omega
  refine ⟨?_, ?_, rfl, rfl⟩ <;>
    simp only [searchForAddressWindow, validatePaginationParams, Option.getD,
      hpage, hsize]

/-- C2 witness: page 0 and page size 100 against maximums 10 and 50. -/
theorem searchForAddress_pagination_witness :
    (1 : Int) ≤ 10 ∧ (1 : Int) ≤ 50 ∧
    (searchForAddressWindow 0 (some 100) 10 50).offset =
        (clampTo 1 10 0 - 1) * clampTo 1 50 100 ∧
    (searchForAddressWindow 0 (some 100) 10 50).size = clampTo 1 50 100 := by
  refine ⟨by decide, by decide, ?_, ?_⟩
  · exact (searchForAddress_pagination 0 100 10 50 (by decide) (by decide)).1
  · exact (searchForAddress_pagination 0 100 10 50 (by decide) (by decide)).2.1

/-- The backoff value held by the sendIndexRequest loop after n failures
under the default configuration: body unchanged and
backoff = min(30000 * (n + 1), 600000). -/
theorem indexRetryStateAfter_default (body : List String) (n : Nat) :
    (indexRetryStateAfter defaultIndexBackoffConfig body n).body = body ∧
    (indexRetryStateAfter defaultIndexBackoffConfig body n).backoff =
      min (30000 * (n + 1)) 600000 := by
  induction n with
  | zero =>
    refine ⟨rfl, ?_⟩
    simp only [indexRetryStateAfter, defaultIndexBackoffConfig]
    omega
  | succ n ih =>
    obtain ⟨ihb, ihk⟩ := ih
    simp only [indexRetryStateAfter, indexRetryStep,
      defaultIndexBackoffConfig] at ihb ihk ⊢
    rw [ihk]
    exact ⟨ihb, by omega⟩

/-- C3: under the default configuration, the sendIndexRequest retry loop
resubmits the same body forever, and the delay waited before
resubmission k (k at least 1, counted from the first failed bulk
response) equals min(30000 * k, 600000) milliseconds. -/
theorem sendIndexRequest_backoff_schedule (body : List String) (k : Nat)
    (hk : 1 ≤ k) :
    (indexRetryStateAfter defaultIndexBackoffConfig body (k - 1)).body = body ∧
    indexRetryDelay defaultIndexBackoffConfig body k =
      min (30000 * k) 600000 := by
  obtain ⟨hb, hk2⟩ := indexRetryStateAfter_default body (k - 1)
  refine ⟨hb, ?_⟩
  show (indexRetryStateAfter defaultIndexBackoffConfig body (k - 1)).backoff = _
  rw [hk2]
  congr 1
  omega

/-- C3 witness: the delay before resubmission 25 has reached the cap of
600000 ms. -/
theorem sendIndexRequest_backoff_schedule_witness :
    1 ≤ 25 ∧
    (indexRetryStateAfter defaultIndexBackoffConfig ["doc"] 24).body = ["doc"] ∧
    indexRetryDelay defaultIndexBackoffConfig ["doc"] 25 =
      min (30000 * 25) 600000 := by
  refine ⟨by decide, ?_, ?_⟩
  · exact (sendIndexRequest_backoff_schedule ["doc"] 25 (by decide)).1
  · exact (sendIndexRequest_backoff_schedule ["doc"] 25 (by decide)).2

/-- C4: before each resume-enabled attempt, the fetcher decides from the
on-disk size: absent or zero-size means a fresh start with no Range
header; a positive size below the known expected size is resumed with
the header Range: bytes={size}-; a positive size at or above the known
expected size is deleted and restarted fresh; with the expected size
unknown, the existing size is trusted and resumed from. -/
theorem streamDown_resume_protocol (file : Option Nat) (expectedSize : Int) :
    (getExistingFileSize file = 0 →
      validatePartialFile file expectedSize =
        { resumeFromBytes := 0, wasDeleted := false } ∧
      attemptRangeHeader
        (validatePartialFile file expectedSize).resumeFromBytes = none) ∧
    (0 < getExistingFileSize file → 0 < expectedSize →
      (getExistingFileSize file : Int) < expectedSize →
      validatePartialFile file expectedSize =
        { resumeFromBytes := getExistingFileSize file, wasDeleted := false } ∧
      attemptRangeHeader
          (validatePartialFile file expectedSize).resumeFromBytes =
        some (("bytes=") ++ toString (getExistingFileSize file) ++ ("-"))) ∧
    (0 < getExistingFileSize file → 0 < expectedSize →
      expectedSize ≤ (getExistingFileSize file : Int) →
      validatePartialFile file expectedSize =
        { resumeFromBytes := 0, wasDeleted := true } ∧
      attemptRangeHeader
        (validatePartialFile file expectedSize).resumeFromBytes = none) ∧
    (0 < getExistingFileSize file → expectedSize ≤ 0 →
      validatePartialFile file expectedSize =
        { resumeFromBytes := getExistingFileSize file, wasDeleted := false } ∧
      attemptRangeHeader
          (validatePartialFile file expectedSize).resumeFromBytes =
        some (("bytes=") ++ toString (getExistingFileSize file) ++ ("-"))) := by
  refine ⟨fun h0 => ?_, fun hpos hexp hlt => ?_, fun hpos hexp hge => ?_,
    fun hpos hunk => ?_⟩ <;>
    simp only [validatePartialFile, attemptRangeHeader] <;>
    split_ifs <;>
    simp_all <;>
    omega

/-- C4 witness: a 500 byte partial against an expected size of 1000 is
resumed with the header Range: bytes=500-. -/
theorem streamDown_resume_protocol_witness :
    0 < getExistingFileSize (some 500) ∧ (0 : Int) < 1000 ∧
    (getExistingFileSize (some 500) : Int) < 1000 ∧
    validatePartialFile (some 500) 1000 =
      { resumeFromBytes := getExistingFileSize (some 500),
        wasDeleted := false } ∧
    attemptRangeHeader (validatePartialFile (some 500) 1000).resumeFromBytes =
      some (("bytes=") ++ toString (getExistingFileSize (some 500)) ++ ("-")) := by
  refine ⟨by decide, by decide, by decide, ?_, ?_⟩
  · exact ((streamDown_resume_protocol (some 500) 1000).2.1
      (by decide) (by decide) (by decide)).1
  · exact ((streamDown_resume_protocol (some 500) 1000).2.1
      (by decide) (by decide) (by decide)).2

/-- C5: fetchGNAFPackageData returns the cached response when its age is
at most one day; otherwise it fetches, and on success refreshes the
cache with the new body, headers and timestamp; on network failure it
returns the cached response with a staleness warning when the age is
under thirty days; with the age at thirty days or more, or with no
cache entry, the network error propagates. -/
theorem fetchGNAFPackageData_tiers (cached : Option CacheEntry) (now : Nat)
    (network : Option NetResponse) :
    (∀ entry, cached = some entry → now - entry.cachedAt ≤ ONE_DAY_MS →
      fetchGNAFPackageData cached now network =
        { result := .ok { body := entry.body, headers := entry.headers },
          servedFromCache := true, staleWarning := false,
          cacheAfter := some entry }) ∧
    (∀ entry r, cached = some entry → ONE_DAY_MS < now - entry.cachedAt →
      network = some r →
      fetchGNAFPackageData cached now network =
        { result := .ok r, servedFromCache := false, staleWarning := false,
          cacheAfter := some { body := r.body, headers := r.headers,
                               cachedAt := now } }) ∧
    (∀ r, cached = none → network = some r →
      fetchGNAFPackageData cached now network =
        { result := .ok r, servedFromCache := false, staleWarning := false,
          cacheAfter := some { body := r.body, headers := r.headers,
                               cachedAt := now } }) ∧
    (∀ entry, cached = some entry → ONE_DAY_MS < now - entry.cachedAt →
      now - entry.cachedAt < THIRTY_DAYS_MS → network = none →
      fetchGNAFPackageData cached now network =
        { result := .ok { body := entry.body, headers := entry.headers },
          servedFromCache := true, staleWarning := true,
          cacheAfter := some entry }) ∧
    (∀ entry, cached = some entry → ONE_DAY_MS < now - entry.cachedAt →
      THIRTY_DAYS_MS ≤ now - entry.cachedAt → network = none →
      (fetchGNAFPackageData cached now network).result = .error ()) ∧
    (cached = none → network = none →
      (fetchGNAFPackageData cached now network).result = .error ()) := by
  refine ⟨?_, ?_, ?_, ?_, ?_, ?_⟩
  · rintro entry rfl hage
    simp only [fetchGNAFPackageData, if_pos hage]
  · rintro entry r rfl hage rfl
    simp only [fetchGNAFPackageData]
    rw [if_neg (show ¬ now - entry.cachedAt ≤ ONE_DAY_MS from by omega)]
  · rintro r rfl rfl
    simp only [fetchGNAFPackageData]
  · rintro entry rfl hage hfresh rfl
    simp only [fetchGNAFPackageData]
    rw [if_neg (show ¬ now - entry.cachedAt ≤ ONE_DAY_MS from by omega),
      if_pos hfresh]
  · rintro entry rfl hage hstale rfl
    simp only [fetchGNAFPackageData]
    rw [if_neg (show ¬ now - entry.cachedAt ≤ ONE_DAY_MS from by omega),
      if_neg (show ¬ now - entry.cachedAt < THIRTY_DAYS_MS from by omega)]
  · rintro rfl rfl
    simp only [fetchGNAFPackageData]

/-- C5 witness: a two day old cache entry, a failed network fetch, and
the stale tier returned with the warning. -/
theorem fetchGNAFPackageData_tiers_witness :
    some (CacheEntry.mk ("b") ("h") 0) =
        some (CacheEntry.mk ("b") ("h") 0) ∧
    ONE_DAY_MS < 172800000 - (CacheEntry.mk ("b") ("h") 0).cachedAt ∧
    172800000 - (CacheEntry.mk ("b") ("h") 0).cachedAt < THIRTY_DAYS_MS ∧
    (none : Option NetResponse) = none ∧
    fetchGNAFPackageData (some (CacheEntry.mk ("b") ("h") 0)) 172800000 none =
      { result := .ok { body := ("b"), headers := ("h") },
        servedFromCache := true, staleWarning := true,
        cacheAfter := some (CacheEntry.mk ("b") ("h") 0) } := by
  refine ⟨rfl, by decide, by decide, rfl, ?_⟩
  exact (fetchGNAFPackageData_tiers (some (CacheEntry.mk ("b") ("h") 0))
      172800000 none).2.2.2.1 (CacheEntry.mk ("b") ("h") 0) rfl
      (by decide) (by decide) rfl

/-- Consecutive HTTP 416 outcomes within the restart budget: each one
deletes the partial file, bumps the restart counter, and loops again
with the retry attempt counter unchanged. -/
theorem streamDownLoop_replicate416 (maxRetries : Nat) (expectedSize : Int)
    (rest : List AttemptOutcome) (attempt : Nat) :
    ∀ k restartCount (file : Option Nat), 1 ≤ k →
      restartCount + k ≤ maxRestarts →
      streamDownLoop maxRetries expectedSize
          (List.replicate k AttemptOutcome.rangeNotSatisfiable ++ rest) file
          attempt restartCount =
        streamDownLoop maxRetries expectedSize rest none attempt
          (restartCount + k) := by
  intro k
  induction k with
  | zero => intro r file hk hb; omega
  | succ n ih =>
    intro r file hk hb
    rw [List.replicate_succ, List.cons_append]
    show streamDownLoop maxRetries expectedSize
        (AttemptOutcome.rangeNotSatisfiable ::
          (List.replicate n AttemptOutcome.rangeNotSatisfiable ++ rest)) file
        attempt r = _
    rw [streamDownLoop]
    rw [if_neg (show ¬ maxRestarts < r + 1 from by omega)]
    cases n with
    | zero =>
      simp only [List.replicate, List.nil_append]
    | succ m =>
      rw [ih (r + 1) none (by omega) (by omega)]
      congr 1
      omega

/-- C6: within one streamDown call, every HTTP 416 response deletes the
partial file and restarts the download without consuming a retry
attempt; at most three such restarts are permitted, and one more 416
makes the call fail with a non-retryable DownloadError carrying the
code CORRUPT_FILE_LOOP. -/
theorem streamDown_http416_policy (maxRetries : Nat) (expectedSize : Int)
    (rest : List AttemptOutcome) (file : Option Nat) (attempt : Nat)
    (k restartCount : Nat) (hk : 1 ≤ k)
    (hbound : restartCount + k ≤ maxRestarts) :
    maxRestarts = 3 ∧
    streamDownLoop maxRetries expectedSize
        (List.replicate k AttemptOutcome.rangeNotSatisfiable ++ rest) file
        attempt restartCount =
      streamDownLoop maxRetries expectedSize rest none attempt
        (restartCount + k) ∧
    streamDownLoop maxRetries expectedSize
        (List.replicate 4 AttemptOutcome.rangeNotSatisfiable ++ rest) file
        attempt 0 =
      .failed { code := "CORRUPT_FILE_LOOP", attempts := attempt + 1,
                isRetryable := false } none := by
  refine ⟨rfl,
    streamDownLoop_replicate416 maxRetries expectedSize rest attempt k
      restartCount file hk hbound, ?_⟩
  have h3 := streamDownLoop_replicate416 maxRetries expectedSize
    (List.replicate 1 AttemptOutcome.rangeNotSatisfiable ++ rest) attempt 3 0
    file (by decide) (by decide)
  rw [show (List.replicate 4 AttemptOutcome.rangeNotSatisfiable ++ rest) =
      (List.replicate 3 AttemptOutcome.rangeNotSatisfiable ++
        (List.replicate 1 AttemptOutcome.rangeNotSatisfiable ++ rest)) from by
    simp [List.replicate]]
  rw [h3]
  rw [List.replicate_succ, List.replicate_zero, List.cons_append,
    List.nil_append]
  rw [streamDownLoop]
  rw [if_pos (show maxRestarts < 0 + 3 + 1 from by decide)]

/-- C6 witness: one 416 outcome deletes a 5 byte partial and loops again
with the attempt counter still 0 and the restart counter 1. -/
theorem streamDown_http416_policy_witness :
    1 ≤ 1 ∧ 0 + 1 ≤ maxRestarts ∧
    streamDownLoop 5 10
        (List.replicate 1 AttemptOutcome.rangeNotSatisfiable ++ []) (some 5)
        0 0 =
      streamDownLoop 5 10 [] none 0 (0 + 1) := by
  refine ⟨by decide, by decide, ?_⟩
  exact (streamDown_http416_policy 5 10 [] (some 5) 0 1 0 (by decide)
    (by decide)).2.1

/-- The integer overflow comparison agrees exactly with the rational
threshold max(expected * 1.01, expected + 1024) of the source. -/
theorem overflowExceeded_iff (expectedBytesThisSession bytes : Nat) :
    overflowExceeded expectedBytesThisSession bytes = true ↔
      overflowThreshold (expectedBytesThisSession : ℚ) < (bytes : ℚ) := by
  rw [overflowExceeded, overflowThreshold, decide_eq_true_eq, max_lt_iff,
    max_lt_iff]
  have hrew : ((expectedBytesThisSession : ℚ) * (101 / 100)) =
      ((101 * expectedBytesThisSession : ℚ)) / 100 := by ring
  rw [hrew, div_lt_iff₀ (by norm_num : (0 : ℚ) < 100)]
  constructor
  · rintro ⟨h1, h2⟩
    have h1q : ((101 * expectedBytesThisSession : Nat) : ℚ) <
        ((100 * bytes : Nat) : ℚ) := by exact_mod_cast h1
    have h2q : ((100 * (expectedBytesThisSession + 1024) : Nat) : ℚ) <
        ((100 * bytes : Nat) : ℚ) := by exact_mod_cast h2
    push_cast at h1q h2q
    exact ⟨by linarith, by linarith⟩
  · rintro ⟨h1, h2⟩
    constructor
    · have hq : ((101 * expectedBytesThisSession : Nat) : ℚ) <
          ((100 * bytes : Nat) : ℚ) := by push_cast; linarith
      exact_mod_cast hq
    · have hq : ((100 * (expectedBytesThisSession + 1024) : Nat) : ℚ) <
          ((100 * bytes : Nat) : ℚ) := by push_cast; linarith
      exact_mod_cast hq

/-- C7: with the total known, a chunk whose arrival would push the
session byte count past max(1.01 * expected, expected + 1024) makes
the write session delete the file and fail with DATA_OVERFLOW; at end
of stream a final size differing from the total deletes the file and
fails with SIZE_MISMATCH; both codes are classified retryable. -/
theorem streamDown_corruption_checks (totalBytes expected : Nat)
    (st : WriteSessionState) (chunk : Nat) (rest : List Nat)
    (finalSize : Nat) :
    (0 < totalBytes →
      overflowThreshold (expected : ℚ) <
        ((st.bytesWrittenThisSession + chunk : Nat) : ℚ) →
      runWriteSession totalBytes expected st (chunk :: rest) =
        .error { code := "DATA_OVERFLOW", fileDeleted := true }) ∧
    (0 < totalBytes → finalSize ≠ totalBytes →
      sessionEndCheck totalBytes finalSize =
        .error { code := "SIZE_MISMATCH", fileDeleted := true }) ∧
    "DATA_OVERFLOW" ∈ RETRYABLE_ERROR_CODES ∧
    "SIZE_MISMATCH" ∈ RETRYABLE_ERROR_CODES := by
  refine ⟨fun htot hover => ?_, fun htot hne => ?_, by decide, by decide⟩
  · have hex : overflowExceeded expected
        (st.bytesWrittenThisSession + chunk) = true :=
      (overflowExceeded_iff expected (st.bytesWrittenThisSession + chunk)).mpr
        hover
    rw [runWriteSession, sessionDataStep, if_pos ⟨htot, hex⟩]
  · rw [sessionEndCheck, if_pos ⟨htot, hne⟩]

/-- C7 witness: expected 100 bytes this session, a 2000 byte chunk
overflowing the threshold, and a 99 byte final size against a 100 byte
total. -/
theorem streamDown_corruption_checks_witness :
    0 < 100 ∧
    overflowThreshold ((100 : Nat) : ℚ) < (((0 + 2000 : Nat)) : ℚ) ∧
    (99 : Nat) ≠ 100 ∧
    runWriteSession 100 100 { fileSize := 0, bytesWrittenThisSession := 0 }
        (2000 :: []) =
      .error { code := "DATA_OVERFLOW", fileDeleted := true } ∧
    sessionEndCheck 100 99 =
      .error { code := "SIZE_MISMATCH", fileDeleted := true } := by
  have hover : overflowThreshold ((100 : Nat) : ℚ) < (((0 + 2000 : Nat)) : ℚ) :=
    (overflowExceeded_iff 100 (0 + 2000)).mp (by decide)
  refine ⟨by decide, hover, by decide, ?_, ?_⟩
  · exact (streamDown_corruption_checks 100 100
      { fileSize := 0, bytesWrittenThisSession := 0 } 2000 [] 99).1
      (by decide) hover
  · exact (streamDown_corruption_checks 100 100
      { fileSize := 0, bytesWrittenThisSession := 0 } 2000 [] 99).2.1
      (by decide) (by decide)

/-- C8: for every address row accepted by the mapper (its mandatory
locality, state and postcode render a nonempty last line), the produced
multi-line address has between 1 and 4 lines, and mapToMla (and
mapToShortMla) returns an error exactly when composing the lines would
produce a fifth line. -/
theorem mapToMla_line_count (s : StructuredAddress) :
    (localityLine s ≠ "" →
      mapToMla s = .ok (composeMlaLines s) ∧
      1 ≤ (composeMlaLines s).length ∧ (composeMlaLines s).length ≤ 4) ∧
    ((∃ msg, mapToMla s = .error msg) ↔ 4 < (composeMlaLines s).length) ∧
    (localityLine s ≠ "" →
      mapToShortMla s = .ok (composeShortMlaLines s) ∧
      1 ≤ (composeShortMlaLines s).length ∧
      (composeShortMlaLines s).length ≤ 4) ∧
    ((∃ msg, mapToShortMla s = .error msg) ↔
      4 < (composeShortMlaLines s).length) := by
  have hlen : (composeMlaLines s).length ≤ 4 := by
    have := List.length_filter_le (fun line => line ≠ "")
      [buildingNameLine s, levelFlatLine s, numberStreetLine s, localityLine s]
    simpa [composeMlaLines] using this
  have hlenS : (composeShortMlaLines s).length ≤ 4 := by
    have := List.length_filter_le (fun line => line ≠ "")
      [buildingNameLine s, shortLevelFlatLine s, numberStreetLine s,
       localityLine s]
    simpa [composeShortMlaLines] using this
  have hok : mapToMla s = .ok (composeMlaLines s) := by
    rw [mapToMla, if_neg (by omega)]
  have hokS : mapToShortMla s = .ok (composeShortMlaLines s) := by
    rw [mapToShortMla, if_neg (by omega)]
  refine ⟨fun hloc => ⟨hok, ?_, hlen⟩, ?_, fun hloc => ⟨hokS, ?_, hlenS⟩, ?_⟩
  · have hmem : localityLine s ∈ composeMlaLines s := by
      rw [composeMlaLines, List.mem_filter]
      exact ⟨by simp, by simpa using hloc⟩
    have := List.length_pos.mpr (List.ne_nil_of_mem hmem)
    omega
  · constructor
    · rintro ⟨msg, hmsg⟩
      rw [hok] at hmsg
      exact absurd hmsg (by simp)
    · intro h
      omega
  · have hmem : localityLine s ∈ composeShortMlaLines s := by
      rw [composeShortMlaLines, List.mem_filter]
      exact ⟨by simp, by simpa using hloc⟩
    have := List.length_pos.mpr (List.ne_nil_of_mem hmem)
    omega
  · constructor
    · rintro ⟨msg, hmsg⟩
      rw [hokS] at hmsg
      exact absurd hmsg (by simp)
    · intro h
      omega

/-- C8 witness: a concrete Barangaroo row maps to a document whose
multi-line address has between 1 and 4 lines. -/
theorem mapToMla_line_count_witness :
    localityLine
        (StructuredAddress.mk none none none ("300") ("BARANGAROO") ("AV")
          ("BARANGAROO") ("NSW") ("2000")) ≠ "" ∧
    mapToMla
        (StructuredAddress.mk none none none ("300") ("BARANGAROO") ("AV")
          ("BARANGAROO") ("NSW") ("2000")) =
      .ok (composeMlaLines
        (StructuredAddress.mk none none none ("300") ("BARANGAROO") ("AV")
          ("BARANGAROO") ("NSW") ("2000"))) ∧
    1 ≤ (composeMlaLines
        (StructuredAddress.mk none none none ("300") ("BARANGAROO") ("AV")
          ("BARANGAROO") ("NSW") ("2000"))).length ∧
    (composeMlaLines
        (StructuredAddress.mk none none none ("300") ("BARANGAROO") ("AV")
          ("BARANGAROO") ("NSW") ("2000"))).length ≤ 4 := by
  refine ⟨by decide, ?_⟩
  exact (mapToMla_line_count
    (StructuredAddress.mk none none none ("300") ("BARANGAROO") ("AV")
      ("BARANGAROO") ("NSW") ("2000"))).1 (by decide)

/-- The find based lookup returns a NAME of a matching table entry when
the code is present and none when it is absent. -/
theorem findCodeName_spec (entries : List AuthorityCodeEntry) (code : String) :
    ((∃ e ∈ entries, e.CODE = code) →
      ∃ n, findCodeName entries code = some n ∧
        ∃ e ∈ entries, e.CODE = code ∧ e.NAME = n) ∧
    ((∀ e ∈ entries, e.CODE ≠ code) → findCodeName entries code = none) := by
  constructor
  · intro hex
    have hsome : (entries.find? (fun entry => entry.CODE = code)).isSome := by
      rw [List.find?_isSome]
      obtain ⟨e, hmem, hcode⟩ := hex
      exact ⟨e, hmem, by simpa using hcode⟩
    obtain ⟨e, he⟩ := Option.isSome_iff_exists.mp hsome
    refine ⟨e.NAME, ?_, e, List.mem_of_find?_eq_some he, ?_, rfl⟩
    · rw [findCodeName, he]
      rfl
    · simpa using List.find?_some he
  · intro hnone
    rw [findCodeName, List.find?_eq_none.mpr (fun e hmem => by
      simpa using hnone e hmem)]
    rfl

/-- C9: each of the nine code-to-name helpers returns the NAME of a table
entry carrying the looked-up CODE when one is present, and returns
undefined without throwing when none is. -/
theorem propertyCodeToName_lookup (context : PropertyCodeToNameContext)
    (code : String) :
    (((∃ e ∈ context.Authority_Code_LEVEL_TYPE_AUT_psv, e.CODE = code) →
      ∃ n, levelTypeCodeToName code context = some n ∧
        ∃ e ∈ context.Authority_Code_LEVEL_TYPE_AUT_psv,
          e.CODE = code ∧ e.NAME = n) ∧
     ((∀ e ∈ context.Authority_Code_LEVEL_TYPE_AUT_psv, e.CODE ≠ code) →
      levelTypeCodeToName code context = none)) ∧
    (((∃ e ∈ context.Authority_Code_FLAT_TYPE_AUT_psv, e.CODE = code) →
      ∃ n, flatTypeCodeToName code context = some n ∧
        ∃ e ∈ context.Authority_Code_FLAT_TYPE_AUT_psv,
          e.CODE = code ∧ e.NAME = n) ∧
     ((∀ e ∈ context.Authority_Code_FLAT_TYPE_AUT_psv, e.CODE ≠ code) →
      flatTypeCodeToName code context = none)) ∧
    (((∃ e ∈ context.Authority_Code_STREET_TYPE_AUT_psv, e.CODE = code) →
      ∃ n, streetTypeCodeToName code context = some n ∧
        ∃ e ∈ context.Authority_Code_STREET_TYPE_AUT_psv,
          e.CODE = code ∧ e.NAME = n) ∧
     ((∀ e ∈ context.Authority_Code_STREET_TYPE_AUT_psv, e.CODE ≠ code) →
      streetTypeCodeToName code context = none)) ∧
    (((∃ e ∈ context.Authority_Code_STREET_CLASS_AUT_psv, e.CODE = code) →
      ∃ n, streetClassCodeToName code context = some n ∧
        ∃ e ∈ context.Authority_Code_STREET_CLASS_AUT_psv,
          e.CODE = code ∧ e.NAME = n) ∧
     ((∀ e ∈ context.Authority_Code_STREET_CLASS_AUT_psv, e.CODE ≠ code) →
      streetClassCodeToName code context = none)) ∧
    (((∃ e ∈ context.Authority_Code_LOCALITY_CLASS_AUT_psv, e.CODE = code) →
      ∃ n, localityClassCodeToName code context = some n ∧
        ∃ e ∈ context.Authority_Code_LOCALITY_CLASS_AUT_psv,
          e.CODE = code ∧ e.NAME = n) ∧
     ((∀ e ∈ context.Authority_Code_LOCALITY_CLASS_AUT_psv, e.CODE ≠ code) →
      localityClassCodeToName code context = none)) ∧
    (((∃ e ∈ context.Authority_Code_STREET_SUFFIX_AUT_psv, e.CODE = code) →
      ∃ n, streetSuffixCodeToName code context = some n ∧
        ∃ e ∈ context.Authority_Code_STREET_SUFFIX_AUT_psv,
          e.CODE = code ∧ e.NAME = n) ∧
     ((∀ e ∈ context.Authority_Code_STREET_SUFFIX_AUT_psv, e.CODE ≠ code) →
      streetSuffixCodeToName code context = none)) ∧
    (((∃ e ∈ context.Authority_Code_GEOCODE_RELIABILITY_AUT_psv,
        e.CODE = code) →
      ∃ n, geocodeReliabilityCodeToName code context = some n ∧
        ∃ e ∈ context.Authority_Code_GEOCODE_RELIABILITY_AUT_psv,
          e.CODE = code ∧ e.NAME = n) ∧
     ((∀ e ∈ context.Authority_Code_GEOCODE_RELIABILITY_AUT_psv,
        e.CODE ≠ code) →
      geocodeReliabilityCodeToName code context = none)) ∧
    (((∃ e ∈ context.Authority_Code_GEOCODE_TYPE_AUT_psv, e.CODE = code) →
      ∃ n, geocodeTypeCodeToName code context = some n ∧
        ∃ e ∈ context.Authority_Code_GEOCODE_TYPE_AUT_psv,
          e.CODE = code ∧ e.NAME = n) ∧
     ((∀ e ∈ context.Authority_Code_GEOCODE_TYPE_AUT_psv, e.CODE ≠ code) →
      geocodeTypeCodeToName code context = none)) ∧
    (((∃ e ∈ context.Authority_Code_GEOCODED_LEVEL_TYPE_AUT_psv,
        e.CODE = code) →
      ∃ n, levelGeocodedCodeToName code context = some n ∧
        ∃ e ∈ context.Authority_Code_GEOCODED_LEVEL_TYPE_AUT_psv,
          e.CODE = code ∧ e.NAME = n) ∧
     ((∀ e ∈ context.Authority_Code_GEOCODED_LEVEL_TYPE_AUT_psv,
        e.CODE ≠ code) →
      levelGeocodedCodeToName code context = none)) :=
  ⟨findCodeName_spec _ code, findCodeName_spec _ code,
   findCodeName_spec _ code, findCodeName_spec _ code,
   findCodeName_spec _ code, findCodeName_spec _ code,
   findCodeName_spec _ code, findCodeName_spec _ code,
   findCodeName_spec _ code⟩

/-- C9 witness: the sample tables resolve the defined level type code L
and return undefined for the absent street type code ZZ. -/
theorem propertyCodeToName_lookup_witness :
    (∃ n, levelTypeCodeToName ("L") sampleAuthorityContext = some n ∧
      ∃ e ∈ sampleAuthorityContext.Authority_Code_LEVEL_TYPE_AUT_psv,
        e.CODE = "L" ∧ e.NAME = n) ∧
    streetTypeCodeToName ("ZZ") sampleAuthorityContext = none := by
  constructor
  · exact (propertyCodeToName_lookup sampleAuthorityContext ("L")).1.1
      ⟨{ CODE := "L", NAME := "LEVEL" }, by decide, rfl⟩
  · exact (propertyCodeToName_lookup sampleAuthorityContext ("ZZ")).2.2.1.2
      (by decide)

/-- C10 counterexample: on a table in which the code A appears twice, the
Array.find based helper returns the first NAME while the Map based
helper returns the last, so the claimed equivalence fails at this
concrete input. -/
theorem lookup_refinement_duplicate_counterexample :
    levelTypeCodeToName ("A") dupAuthorityContext = some ("first") ∧
    levelTypeCodeToNameDist ("A") dupAuthorityContext = some ("second") ∧
    levelTypeCodeToName ("A") dupAuthorityContext ≠
      levelTypeCodeToNameDist ("A") dupAuthorityContext := by
  decide

/-- Reading a Map after set: the new key holds the new value and every
other key is unchanged. -/
theorem mapGet_mapSet (m : List (String × String)) (k v code : String) :
    mapGet (mapSet m k v) code =
      if code = k then some v else mapGet m code := by
  induction m with
  | nil =>
    by_cases h : code = k
    · subst h
      simp [mapSet, mapGet]
    · have hk : ¬ k = code := fun hkc => h hkc.symm
      simp [mapSet, mapGet, h, hk]
  | cons p rest ih =>
    by_cases hpk : p.1 = k
    · by_cases hc : code = k
      · subst hc
        simp [mapSet, mapGet, hpk]
      · have hk : ¬ k = code := fun hkc => hc hkc.symm
        have hp : ¬ p.1 = code := fun hpc => hc (hpk.symm.trans hpc).symm
        simp only [mapSet, if_pos hpk, mapGet]
        rw [List.find?_cons_of_neg _ (by simpa using hk),
          List.find?_cons_of_neg _ (by simpa using hp), if_neg hc]
    · by_cases hpc : p.1 = code
      · have hck : ¬ code = k := fun h => hpk (hpc.trans h)
        simp [mapSet, mapGet, hpk, hpc, hck]
      · simp only [mapSet, if_neg hpk]
        simp only [mapGet] at ih ⊢
        rw [List.find?_cons_of_neg _ (by simpa using hpc),
          List.find?_cons_of_neg _ (by simpa using hpc)]
        exact ih

/-- Folding map.set over a table starting from any Map: the result at a
code is the last matching NAME of the table when one exists, and the
initial Map value otherwise. -/
theorem mapGet_foldl_mapSet (entries : List AuthorityCodeEntry) :
    ∀ (m : List (String × String)) (code : String),
      mapGet (entries.foldl (fun acc e => mapSet acc e.CODE e.NAME) m) code =
        match lastCodeName entries code with
        | some n => some n
        | none => mapGet m code := by
  induction entries with
  | nil => intro m code; rfl
  | cons e rest ih =>
    intro m code
    show mapGet
        (rest.foldl (fun acc x => mapSet acc x.CODE x.NAME)
          (mapSet m e.CODE e.NAME)) code = _
    rw [ih]
    cases hl : lastCodeName rest code with
    | some n => simp [lastCodeName, hl]
    | none =>
      simp only [lastCodeName, hl]
      rw [mapGet_mapSet]
      by_cases hc : e.CODE = code
      · simp [hc]
      · have hck : ¬ code = e.CODE := fun hck => hc hck.symm
        simp [hc, hck]

/-- A table with no entry for the code has no last matching NAME. -/
theorem lastCodeName_eq_none (entries : List AuthorityCodeEntry)
    (code : String) (h : ∀ e ∈ entries, e.CODE ≠ code) :
    lastCodeName entries code = none := by
  induction entries with
  | nil => rfl
  | cons e rest ih =>
    rw [lastCodeName, ih (fun x hx => h x (List.mem_cons_of_mem e hx))]
    simp [h e (List.mem_cons_self e rest)]

/-- With pairwise distinct codes the last matching NAME is the first
matching NAME. -/
theorem lastCodeName_eq_findCodeName (entries : List AuthorityCodeEntry)
    (code : String) (h : codesDistinct entries) :
    lastCodeName entries code = findCodeName entries code := by
  induction entries with
  | nil => rfl
  | cons e rest ih =>
    have hdis : ∀ x ∈ rest, e.CODE ≠ x.CODE := List.pairwise_cons.mp h |>.1
    have hrest : codesDistinct rest := List.pairwise_cons.mp h |>.2
    by_cases hc : e.CODE = code
    · have hnone : lastCodeName rest code = none :=
        lastCodeName_eq_none rest code
          (fun x hx => fun hxc => hdis x hx (hc.trans hxc.symm))
      have hfind : findCodeName (e :: rest) code = some e.NAME := by
        rw [findCodeName, List.find?_cons_of_pos _ (by simpa using hc)]
        rfl
      rw [lastCodeName, hnone, hfind]
      simp [hc]
    · have hfind : findCodeName (e :: rest) code = findCodeName rest code := by
        rw [findCodeName, List.find?_cons_of_neg _ (by simpa using hc)]
        rfl
      rw [lastCodeName, hfind, ← ih hrest]
      cases hl : lastCodeName rest code with
      | some n => rfl
      | none => simp [hc]

/-- With pairwise distinct codes the Map based lookup body agrees with
the Array.find based lookup body. -/
theorem mapCodeName_eq_findCodeName (entries : List AuthorityCodeEntry)
    (code : String) (h : codesDistinct entries) :
    mapCodeName entries code = findCodeName entries code := by
  have haux := mapGet_foldl_mapSet entries [] code
  rw [← lastCodeName_eq_findCodeName entries code h]
  rw [mapCodeName, buildCodeMap, haux]
  cases lastCodeName entries code <;> rfl

/-- C10 amended: starting from cleared lookup-map state, the Array.find
based helpers of the TypeScript source and the Map based helpers of the
compiled dist agree on every code for every context whose tables carry
pairwise distinct codes; on a duplicated code the find based helper
returns the first entry NAME while the Map based helper returns the
last, as the counterexample shows. -/
theorem lookup_refinement_distinct_codes (context : PropertyCodeToNameContext)
    (code : String)
    (h1 : codesDistinct context.Authority_Code_LEVEL_TYPE_AUT_psv)
    (h2 : codesDistinct context.Authority_Code_FLAT_TYPE_AUT_psv)
    (h3 : codesDistinct context.Authority_Code_STREET_TYPE_AUT_psv)
    (h4 : codesDistinct context.Authority_Code_STREET_CLASS_AUT_psv)
    (h5 : codesDistinct context.Authority_Code_LOCALITY_CLASS_AUT_psv)
    (h6 : codesDistinct context.Authority_Code_STREET_SUFFIX_AUT_psv)
    (h7 : codesDistinct context.Authority_Code_GEOCODE_RELIABILITY_AUT_psv)
    (h8 : codesDistinct context.Authority_Code_GEOCODE_TYPE_AUT_psv)
    (h9 : codesDistinct context.Authority_Code_GEOCODED_LEVEL_TYPE_AUT_psv) :
    levelTypeCodeToName code context = levelTypeCodeToNameDist code context ∧
    flatTypeCodeToName code context = flatTypeCodeToNameDist code context ∧
    streetTypeCodeToName code context = streetTypeCodeToNameDist code context ∧
    streetClassCodeToName code context =
      streetClassCodeToNameDist code context ∧
    localityClassCodeToName code context =
      localityClassCodeToNameDist code context ∧
    streetSuffixCodeToName code context =
      streetSuffixCodeToNameDist code context ∧
    geocodeReliabilityCodeToName code context =
      geocodeReliabilityCodeToNameDist code context ∧
    geocodeTypeCodeToName code context =
      geocodeTypeCodeToNameDist code context ∧
    levelGeocodedCodeToName code context =
      levelGeocodedCodeToNameDist code context :=
  ⟨(mapCodeName_eq_findCodeName _ code h1).symm,
   (mapCodeName_eq_findCodeName _ code h2).symm,
   (mapCodeName_eq_findCodeName _ code h3).symm,
   (mapCodeName_eq_findCodeName _ code h4).symm,
   (mapCodeName_eq_findCodeName _ code h5).symm,
   (mapCodeName_eq_findCodeName _ code h6).symm,
   (mapCodeName_eq_findCodeName _ code h7).symm,
   (mapCodeName_eq_findCodeName _ code h8).symm,
   (mapCodeName_eq_findCodeName _ code h9).symm⟩

/-- C10 witness: on the sample context, whose tables carry pairwise
distinct codes, both helper families agree at the code L. -/
theorem lookup_refinement_distinct_codes_witness :
    levelTypeCodeToName ("L") sampleAuthorityContext =
      levelTypeCodeToNameDist ("L") sampleAuthorityContext ∧
    streetTypeCodeToName ("L") sampleAuthorityContext =
      streetTypeCodeToNameDist ("L") sampleAuthorityContext :=
  ⟨(lookup_refinement_distinct_codes sampleAuthorityContext ("L")
      (by decide) (by decide) (by decide) (by decide) (by decide) (by decide)
      (by decide) (by decide) (by decide)).1,
   (lookup_refinement_distinct_codes sampleAuthorityContext ("L")
      (by decide) (by decide) (by decide) (by decide) (by decide) (by decide)
      (by decide) (by decide) (by decide)).2.2.1⟩
